import Mathlib

/-!
Shallow embedding of the playlist/playback state machine of Musibisk
(src/main.py, class `Musibisk` plus `FileWatcherHandler`).

Modelling conventions:
* A Track is the file name (a `String`).  All tracks live in the single
  watched directory, so the name identifies the path; the save-marker
  logic of the source operates on `Path.name`, which is exactly this
  string.
* Machine/driver collaborators (QMediaPlayer, the filesystem, watchdog)
  are externalised: the player position is a field that driver events
  read and transport commands write; file existence and the success of
  `unlink`/`rename` are boolean inputs to the operations that touch the
  disk; the contents of the watched directory are passed to
  `load_existing_files` as a list of (name, mtime) entries.
* `save_config` in the source writes a JSON document; here every write
  is logged by consing the written `Config` onto `savedConfigs`, so the
  absence of a write is observable.
* `volume` is kept in slider units (0..100), the scale `save_config`
  would divide by 100.0; no claim depends on the float scaling.
-/

namespace Musibisk

inductive LoopMode where
  | NO_LOOP
  | LOOP_PLAYLIST
  | LOOP_SINGLE
deriving DecidableEq, Repr

inductive PlayOrder where
  | OLDEST_TO_NEWEST
  | NEWEST_TO_OLDEST
deriving DecidableEq, Repr

/-- The JSON document written by `Musibisk.save_config` (src/main.py,
`save_config`): loop mode, play order, volume, initial songs count, and
the target directory when one is set. -/
structure Config where
  loop_mode : LoopMode
  play_order : PlayOrder
  volume : Nat
  initial_songs_count : Nat
  target_directory : Option String
deriving DecidableEq, Repr

/-- A directory entry seen by `load_existing_files`: file name and
modification time (`f.stat().st_mtime`). -/
structure DirEntry where
  name : String
  mtime : Nat
deriving DecidableEq, Repr

/-- The mutable state of the `Musibisk` window that the claims touch:
the playlist fields set up in `__init__`, the player/transport state of
the external QMediaPlayer, the two labels the transport code writes,
the delete-button double-click state, and the log of config writes. -/
structure State where
  playlist : List String
  current_index : Int
  loop_mode : LoopMode
  play_order : PlayOrder
  target_directory : Option String
  initial_songs_count : Nat
  volume : Nat
  playing : Bool
  position : Nat
  loadedSource : Option String
  song_label : String
  play_pause_label : String
  delete_click_count : Nat
  delete_last_click_time : Nat
  delete_last_song_index : Int
  savedConfigs : List Config
deriving DecidableEq, Repr

/-- Source constant `AUDIO_EXTENSIONS` (identical set in `Musibisk` and
`FileWatcherHandler`). -/
def AUDIO_EXTENSIONS : List String :=
  [".mp3", ".flac", ".m4a", ".wav", ".ogg", ".opus", ".aac", ".wma"]

/-- Index of the last '.' in a character list, if any. -/
def rfindDot : List Char → Option Nat
  | [] => none
  | c :: cs =>
    match rfindDot cs with
    | some i => some (i + 1)
    | none => if c = '.' then some 0 else none

/-- Python `pathlib.PurePath.suffix` on a bare file name: the substring
from the last '.', provided that dot is neither the first nor the last
character; otherwise the empty string. -/
def pathSuffix (name : String) : String :=
  let cs := name.toList
  match rfindDot cs with
  | none => ""
  | some i => if 0 < i ∧ i + 1 < cs.length then String.mk (cs.drop i) else ""

/-- ASCII lowercasing of one character, as Python `str.lower` acts on
the ASCII extension strings involved here. -/
def lowerChar (c : Char) : Char :=
  if 65 ≤ c.toNat ∧ c.toNat ≤ 90 then Char.ofNat (c.toNat + 32) else c

/-- Python `str.lower` (structural, over the character list). -/
def lowerStr (s : String) : String :=
  String.mk (s.toList.map lowerChar)

/-- Python `str.endswith` (structural, over the character list). -/
def strEndsWith (s suf : String) : Bool :=
  suf.toList.isSuffixOf s.toList

/-- Python `str.startswith` (structural, over the character list). -/
def strStartsWith (s p : String) : Bool :=
  p.toList.isPrefixOf s.toList

/-- Whether `directory.glob ("*" ++ ext)` for some recognized extension
matches the file name.  `Path.glob` compares case-sensitively on a
case-sensitive filesystem, so this is a plain suffix test against the
lowercase patterns; no name matches two distinct patterns of the set, so
filtering once is the same multiset as the per-extension `glob` loop of
`load_existing_files`. -/
def matchesAudioGlob (name : String) : Bool :=
  AUDIO_EXTENSIONS.any (fun ext => strEndsWith name ext)

/-- Stable-enough insertion step for sorting by mtime descending
(`files.sort(key=..., reverse=True)`); no claim depends on tie order,
which in the source is the unspecified set-iteration order of the
per-extension globs. -/
def insertMtimeDesc (e : DirEntry) : List DirEntry → List DirEntry
  | [] => [e]
  | f :: fs => if e.mtime ≤ f.mtime then f :: insertMtimeDesc e fs else e :: f :: fs

/-- Sort directory entries by modification time, most recent first. -/
def sortMtimeDesc : List DirEntry → List DirEntry
  | [] => []
  | e :: es => insertMtimeDesc e (sortMtimeDesc es)

/-- Model of `Musibisk.get_next_index`. -/
def get_next_index (s : State) : Int :=
  if s.playlist = [] then -1
  else if s.play_order = PlayOrder.NEWEST_TO_OLDEST then
    (s.current_index + 1) % (s.playlist.length : Int)
  else
    if s.current_index - 1 < 0 then (s.playlist.length : Int) - 1
    else s.current_index - 1

/-- Model of `Musibisk.get_previous_index`. -/
def get_previous_index (s : State) : Int :=
  if s.playlist = [] then -1
  else if s.play_order = PlayOrder.NEWEST_TO_OLDEST then
    if s.current_index - 1 < 0 then (s.playlist.length : Int) - 1
    else s.current_index - 1
  else
    (s.current_index + 1) % (s.playlist.length : Int)

/-- Model of `Musibisk.get_starting_index`. -/
def get_starting_index (s : State) : Int :=
  if s.playlist = [] then -1
  else if s.play_order = PlayOrder.NEWEST_TO_OLDEST then
    (s.playlist.length : Int) - 1
  else 0

/-- Model of `Musibisk.load_current_song`: when the index is in range, hand the
track at it to the player and show its name.  Tag reading
(`get_song_name`) is an external collaborator that falls back to the
file name; the label is modelled as the file name itself. -/
def load_current_song (s : State) : State :=
  if 0 ≤ s.current_index ∧ s.current_index < (s.playlist.length : Int) then
    let filepath := s.playlist.getD s.current_index.toNat ""
    { s with loadedSource := some filepath, song_label := filepath }
  else s

/-- Model of `Musibisk.reset_delete_state`. -/
def reset_delete_state (s : State) : State :=
  { s with delete_click_count := 0, delete_last_click_time := 0,
           delete_last_song_index := -1 }

/-- The config dict assembled inside `Musibisk.save_config` before it is
written. -/
def currentConfig (s : State) : Config :=
  { loop_mode := s.loop_mode, play_order := s.play_order,
    volume := s.volume, initial_songs_count := s.initial_songs_count,
    target_directory := s.target_directory }

/-- Model of `Musibisk.save_config`: write the current settings to the config
store (modelled as a log of writes). -/
def save_config (s : State) : State :=
  { s with savedConfigs := currentConfig s :: s.savedConfigs }

/-- Model of `Musibisk.handle_volume_slider`: sets the audio output volume from
the slider value.  (Note: the source does not call `save_config`
here.) -/
def handle_volume_slider (value : Nat) (s : State) : State :=
  { s with volume := value }

/-- Cycle order of `Musibisk.toggle_loop_mode`
(`modes[(current_idx + 1) % len(modes)]`). -/
def nextLoopMode : LoopMode → LoopMode
  | LoopMode.NO_LOOP => LoopMode.LOOP_PLAYLIST
  | LoopMode.LOOP_PLAYLIST => LoopMode.LOOP_SINGLE
  | LoopMode.LOOP_SINGLE => LoopMode.NO_LOOP

/-- Model of `Musibisk.toggle_loop_mode`. -/
def toggle_loop_mode (s : State) : State :=
  save_config { s with loop_mode := nextLoopMode s.loop_mode }

/-- Model of `Musibisk.load_existing_files`: glob the recognized extensions in
the directory, sort by mtime descending, truncate to the limit
(defaulting to `initial_songs_count`), replace the playlist, and start
from the play-order-dependent position only when `current_index == -1`. -/
def load_existing_files (entries : List DirEntry) (limit : Option Nat)
    (s : State) : State :=
  let lim := limit.getD s.initial_songs_count
  let files := (sortMtimeDesc (entries.filter (fun e => matchesAudioGlob e.name))).take lim
  let pl := files.map (fun e => e.name)
  let s1 : State := { s with playlist := pl }
  if pl ≠ [] ∧ s.current_index = -1 then
    load_current_song { s1 with current_index := get_starting_index s1 }
  else s1

/-- Model of `Musibisk.show_settings`: on OK, store the dialog's songs count and
play order, `save_config`, and if a target directory is set reload the
playlist from it (`entries` is the directory's content at that moment). -/
def show_settings (accepted : Bool) (newCount : Nat) (newOrder : PlayOrder)
    (entries : List DirEntry) (s : State) : State :=
  if accepted then
    let s1 := save_config { s with initial_songs_count := newCount,
                                   play_order := newOrder }
    match s1.target_directory with
    | some _ => load_existing_files entries none s1
    | none => s1
  else s

/-- Model of `Musibisk.set_target_directory`: record the new directory,
reload the playlist from it (`entries` is that directory's content;
stopping and restarting the watcher thread is external), then persist
the config. -/
def set_target_directory (directory : String) (entries : List DirEntry)
    (s : State) : State :=
  save_config (load_existing_files entries none
    { s with target_directory := some directory })

/-- Model of `Musibisk.add_file_to_playlist` (slot of the watcher's `file_added`
signal): if the path is not already present, insert at the head, bump a
non-sentinel current index by one, and if nothing was loaded start at
the play-order-dependent position and play. -/
def add_file_to_playlist (filepath : String) (s : State) : State :=
  if filepath ∈ s.playlist then s
  else
    let s1 := { s with playlist := filepath :: s.playlist }
    let s2 := if 0 ≤ s1.current_index
              then { s1 with current_index := s1.current_index + 1 }
              else s1
    if s2.current_index = -1 then
      let s3 := load_current_song { s2 with current_index := get_starting_index s2 }
      { s3 with playing := true }
    else s2

/-- Model of `FileWatcherHandler.on_created`: for a non-directory event whose
lowercased `Path.suffix` is a recognized extension, deliver the path to
the playlist (the handler's callback is `file_added.emit`, connected to
`add_file_to_playlist`). -/
def on_created (isDir : Bool) (src_path : String) (s : State) : State :=
  if isDir then s
  else if lowerStr (pathSuffix src_path) ∈ AUDIO_EXTENSIONS then
    add_file_to_playlist src_path s
  else s

/-- Model of `Musibisk.next_song`. -/
def next_song (s : State) : State :=
  if s.playlist = [] then s
  else
    let s1 :=
      if s.loop_mode = LoopMode.LOOP_SINGLE then
        { s with position := 0, playing := true }
      else
        let s2 := load_current_song { s with current_index := get_next_index s }
        { s2 with playing := true, play_pause_label := "⏸" }
    reset_delete_state s1

/-- Model of `Musibisk.previous_song`; `s.position` is what `player.position()`
reports at the call. -/
def previous_song (s : State) : State :=
  if s.playlist = [] then s
  else
    let s1 :=
      if 3000 < s.position then
        { s with position := 0 }
      else
        let s2 := load_current_song { s with current_index := get_previous_index s }
        { s2 with playing := true, play_pause_label := "⏸" }
    reset_delete_state s1

/-- Model of `Musibisk.delete_current_song`.  `fileExists` is
`current_file.exists()`; `unlinkOk` tells whether `current_file.unlink()`
succeeds — when it raises, the exception is caught after `player.stop()`
and before any playlist mutation. -/
def delete_current_song (fileExists unlinkOk : Bool) (s : State) : State :=
  if s.current_index < 0 ∨ (s.playlist.length : Int) ≤ s.current_index then s
  else if ¬ fileExists then s
  else
    let s1 := { s with playing := false }
    if ¬ unlinkOk then s1
    else
      let pl := s1.playlist.eraseIdx s1.current_index.toNat
      let s2 := { s1 with playlist := pl }
      if pl ≠ [] then
        let i2 := if (pl.length : Int) ≤ s2.current_index
                  then (pl.length : Int) - 1 else s2.current_index
        let s3 := load_current_song { s2 with current_index := i2 }
        { s3 with playing := true, play_pause_label := "⏸" }
      else
        { s2 with current_index := -1, song_label := "No song loaded",
                  play_pause_label := "▶" }

/-- Model of `Musibisk.is_song_saved`: the track's file name carries the
save-marker `*_`. -/
def is_song_saved (filepath : String) : Bool :=
  strStartsWith filepath "*_"

/-- Model of `Musibisk.toggle_save_song`.  `fileExists` is
`current_file.exists()`; `renameOk` tells whether
`current_file.rename(new_path)` succeeds — when it raises, the exception
is caught before any in-memory mutation. -/
def toggle_save_song (fileExists renameOk : Bool) (s : State) : State :=
  if s.current_index < 0 ∨ (s.playlist.length : Int) ≤ s.current_index then s
  else
    let current_file := s.playlist.getD s.current_index.toNat ""
    if ¬ fileExists then s
    else
      let new_name := if is_song_saved current_file
                      then current_file.drop 2
                      else "*_" ++ current_file
      if renameOk then
        { s with playlist := s.playlist.set s.current_index.toNat new_name,
                 song_label := new_name }
      else s

inductive MediaStatus where
  | EndOfMedia
  | Other
deriving DecidableEq, Repr

/-- Model of `Musibisk.on_media_status_changed`.  The driver emits `EndOfMedia`
after playback of the loaded media has finished, i.e. with the transport
already stopped; the handler itself only restarts playback in the
branches that call `play()`. -/
def on_media_status_changed (status : MediaStatus) (s : State) : State :=
  match status with
  | MediaStatus.Other => s
  | MediaStatus.EndOfMedia =>
    if s.loop_mode = LoopMode.LOOP_SINGLE then
      { s with position := 0, playing := true }
    else if s.loop_mode = LoopMode.LOOP_PLAYLIST then
      next_song s
    else
      if s.play_order = PlayOrder.NEWEST_TO_OLDEST then
        if 0 < s.current_index then next_song s
        else { s with play_pause_label := "▶" }
      else
        if s.current_index < (s.playlist.length : Int) - 1 then next_song s
        else { s with play_pause_label := "▶" }

/-- The index invariant of the spec's data model: whenever the playlist
is non-empty and playback has been initiated (the index is not the
sentinel -1), the current index is in range. -/
def indexInvariant (s : State) : Prop :=
  s.playlist ≠ [] ∧ s.current_index ≠ -1 →
    0 ≤ s.current_index ∧ s.current_index < (s.playlist.length : Int)

instance (s : State) : Decidable (indexInvariant s) := by
  unfold indexInvariant; infer_instance

/-- A concrete reachable-looking state used by witnesses and
counterexamples: two tracks, the newer one (head) loaded and playing. -/
def baseState : State :=
  { playlist := ["b", "a"], current_index := 0,
    loop_mode := LoopMode.NO_LOOP, play_order := PlayOrder.OLDEST_TO_NEWEST,
    target_directory := some "music", initial_songs_count := 50,
    volume := 70, playing := true, position := 0,
    loadedSource := some "b", song_label := "b", play_pause_label := "⏸",
    delete_click_count := 0, delete_last_click_time := 0,
    delete_last_song_index := -1, savedConfigs := [] }

/-! ### Helper lemmas -/

theorem load_current_song_playlist (s : State) :
    (load_current_song s).playlist = s.playlist := by
  unfold load_current_song; split <;> rfl

theorem load_current_song_current_index (s : State) :
    (load_current_song s).current_index = s.current_index := by
  unfold load_current_song; split <;> rfl

theorem load_current_song_play_order (s : State) :
    (load_current_song s).play_order = s.play_order := by
  unfold load_current_song; split <;> rfl

theorem load_current_song_position (s : State) :
    (load_current_song s).position = s.position := by
  unfold load_current_song; split <;> rfl

theorem load_current_song_loop_mode (s : State) :
    (load_current_song s).loop_mode = s.loop_mode := by
  unfold load_current_song; split <;> rfl

theorem load_current_song_savedConfigs (s : State) :
    (load_current_song s).savedConfigs = s.savedConfigs := by
  unfold load_current_song; split <;> rfl

/-- The function `get_previous_index` reads only the playlist, the play order and the
current index. -/
theorem get_previous_index_congr (s t : State)
    (h1 : s.playlist = t.playlist) (h2 : s.play_order = t.play_order)
    (h3 : s.current_index = t.current_index) :
    get_previous_index s = get_previous_index t := by
  unfold get_previous_index; rw [h1, h2, h3]

/-- Core of C3: `get_previous_index` undoes `get_next_index` at any
in-range index, for either play order. -/
theorem prev_of_next (s : State) (hne : s.playlist ≠ [])
    (h0 : 0 ≤ s.current_index)
    (hlt : s.current_index < (s.playlist.length : Int)) :
    get_previous_index { s with current_index := get_next_index s } = s.current_index := by
  have hN : 0 < (s.playlist.length : Int) := by
    exact_mod_cast List.length_pos.mpr hne
  cases hpo : s.play_order with
  | OLDEST_TO_NEWEST =>
    by_cases hz : s.current_index - 1 < 0
    · have hi : s.current_index = 0 := by omega
      simp only [get_previous_index, get_next_index, hne, hpo, hz,
        if_neg, if_true, if_false, ite_false, ite_true, reduceCtorEq]
      simp only [hi, if_pos hz]
      have h1 : (s.playlist.length : Int) - 1 + 1 = (s.playlist.length : Int) := by ring
      simp [hne, h1, Int.emod_self]
    · simp only [get_previous_index, get_next_index, hne, hpo, reduceCtorEq,
        ite_false, if_neg hz]
      have h1 : s.current_index - 1 + 1 = s.current_index := by ring
      simp [hne, h1, Int.emod_eq_of_lt h0 hlt]
  | NEWEST_TO_OLDEST =>
    by_cases hc : s.current_index + 1 < (s.playlist.length : Int)
    · have hj : (s.current_index + 1) % (s.playlist.length : Int) = s.current_index + 1 :=
        Int.emod_eq_of_lt (by omega) hc
      simp [get_previous_index, get_next_index, hne, hpo, hj]
      omega
    · have hi : s.current_index + 1 = (s.playlist.length : Int) := by omega
      simp [get_previous_index, get_next_index, hne, hpo, hi, Int.emod_self]
      omega

/-- Fields of `next_song` when the playlist is non-empty and loop mode
is not LoopSingle: the index advances by `get_next_index` and the
playlist, play order and reported position are untouched. -/
theorem next_song_fields (s : State) (hne : s.playlist ≠ [])
    (hl : s.loop_mode ≠ LoopMode.LOOP_SINGLE) :
    (next_song s).playlist = s.playlist ∧
    (next_song s).current_index = get_next_index s ∧
    (next_song s).play_order = s.play_order ∧
    (next_song s).position = s.position := by
  unfold next_song reset_delete_state
  simp only [hne, hl, ite_false, if_neg]
  refine ⟨?_, ?_, ?_, ?_⟩ <;>
    simp [load_current_song_playlist, load_current_song_current_index,
      load_current_song_play_order, load_current_song_position]

/-- When the reported position is at most 3000 ms, `previous_song`
moves the index to `get_previous_index`. -/
theorem previous_song_index_of_le (s : State) (hne : s.playlist ≠ [])
    (hpos : s.position ≤ 3000) :
    (previous_song s).current_index = get_previous_index s := by
  unfold previous_song reset_delete_state
  have h : ¬ 3000 < s.position := by omega
  simp [hne, h, load_current_song_current_index]

/-! ### Claims -/

/-- A state in which the older track (index 1 of 2) is current, so that
a reload which shrinks the playlist to a single entry strands the
index. -/
def c1State : State := { baseState with current_index := 1 }

/-- The watched directory for the C1 scenario: two audio files, "b.mp3"
more recent than "a.mp3". -/
def c1Entries : List DirEntry := [⟨"a.mp3", 1⟩, ⟨"b.mp3", 2⟩]

/-- C1: the claimed invariant (0 ≤ Current Index < length whenever the
playlist is non-empty and playback has been initiated) is FALSIFIED by
the code: accepting the settings dialog with initial playlist size 1
while Current Index is 1 rebuilds the playlist to a single track via
`load_existing_files`, which resets the index only when it is the
sentinel, leaving Current Index = 1 out of range of the length-1
playlist. -/
theorem c1_reload_violates_index_invariant :
    indexInvariant c1State ∧
    (show_settings true 1 PlayOrder.OLDEST_TO_NEWEST c1Entries c1State).playlist.length = 1 ∧
    (show_settings true 1 PlayOrder.OLDEST_TO_NEWEST c1Entries c1State).current_index = 1 ∧
    ¬ indexInvariant (show_settings true 1 PlayOrder.OLDEST_TO_NEWEST c1Entries c1State) := by
  decide

/-- A LoopSingle state with the newer of two tracks current and the
driver reporting position 0. -/
def c2State : State := { baseState with loop_mode := LoopMode.LOOP_SINGLE }

/-- C2 counterexample: with Loop Mode = LoopSingle and reported position
0 ≤ 3000 ms, `previous_song` does NOT leave Current Index unchanged — it
moves it from 0 to `get_previous_index` = 1, because `previous_song`
never consults the loop mode. -/
theorem c2_counterexample :
    c2State.loop_mode = LoopMode.LOOP_SINGLE ∧
    c2State.position ≤ 3000 ∧
    c2State.playlist ≠ [] ∧
    c2State.current_index = 0 ∧
    (previous_song c2State).current_index = 1 := by
  decide

/-- C2 amended: with Loop Mode = LoopSingle, `next_song` restarts the
current track at position 0 without changing Current Index; but
`previous_song` ignores the loop mode — with reported position ≤ 3000 ms
it moves Current Index to `get_previous_index` regardless. -/
theorem c2_amended_loop_single (s : State)
    (hne : s.playlist ≠ []) (hl : s.loop_mode = LoopMode.LOOP_SINGLE) :
    (next_song s).current_index = s.current_index ∧
    (next_song s).position = 0 ∧
    (next_song s).playing = true ∧
    (s.position ≤ 3000 → (previous_song s).current_index = get_previous_index s) := by
  refine ⟨?_, ?_, ?_, fun hpos => previous_song_index_of_le s hne hpos⟩ <;>
    simp [next_song, reset_delete_state, hne, hl]

/-- C2 amended, witnessed at `c2State`. -/
theorem c2_amended_loop_single_witness :
    (next_song c2State).current_index = c2State.current_index ∧
    (next_song c2State).position = 0 ∧
    (next_song c2State).playing = true ∧
    (c2State.position ≤ 3000 →
      (previous_song c2State).current_index = get_previous_index c2State) :=
  c2_amended_loop_single c2State (by decide) (by decide)

/-- C3: for every non-empty playlist, in-range index and either play
order, `get_previous_index` is the inverse of `get_next_index`; and at
the operation level, `next_song` followed by `previous_song` (reported
position ≤ 3000 ms, loop mode not LoopSingle, whose `previous_song`
asymmetry is claim C2's finding) returns Current Index to its original
value. -/
theorem c3_next_then_previous_inverse (s : State)
    (hne : s.playlist ≠ [])
    (h0 : 0 ≤ s.current_index)
    (hlt : s.current_index < (s.playlist.length : Int)) :
    get_previous_index { s with current_index := get_next_index s } = s.current_index ∧
    (s.loop_mode ≠ LoopMode.LOOP_SINGLE → s.position ≤ 3000 →
      (previous_song (next_song s)).current_index = s.current_index) := by
  refine ⟨prev_of_next s hne h0 hlt, fun hl hpos => ?_⟩
  obtain ⟨hpl, hidx, hpo, hps⟩ := next_song_fields s hne hl
  have hne2 : (next_song s).playlist ≠ [] := by rw [hpl]; exact hne
  have hpos2 : (next_song s).position ≤ 3000 := by rw [hps]; exact hpos
  rw [previous_song_index_of_le (next_song s) hne2 hpos2]
  rw [get_previous_index_congr (next_song s)
        { s with current_index := get_next_index s } hpl hpo hidx]
  exact prev_of_next s hne h0 hlt

/-- C3, witnessed at `baseState` (two tracks, index 0, NoLoop,
OldestToNewest, position 0). -/
theorem c3_next_then_previous_inverse_witness :
    get_previous_index { baseState with current_index := get_next_index baseState }
        = baseState.current_index ∧
    (baseState.loop_mode ≠ LoopMode.LOOP_SINGLE → baseState.position ≤ 3000 →
      (previous_song (next_song baseState)).current_index = baseState.current_index) :=
  c3_next_then_previous_inverse baseState (by decide) (by decide) (by decide)

/-- C4: discovering a path not already in the playlist while a track is
current prepends it, bumps Current Index by one, and the entry at the
new Current Index is the same track as before. -/
theorem c4_insert_at_head_preserves_current_track (s : State) (p : String)
    (hp : p ∉ s.playlist)
    (h0 : 0 ≤ s.current_index)
    (hlt : s.current_index < (s.playlist.length : Int)) :
    (add_file_to_playlist p s).playlist = p :: s.playlist ∧
    (add_file_to_playlist p s).current_index = s.current_index + 1 ∧
    (add_file_to_playlist p s).playlist.get? (add_file_to_playlist p s).current_index.toNat
      = s.playlist.get? s.current_index.toNat := by
  obtain ⟨n, hn⟩ := Int.eq_ofNat_of_zero_le h0
  have hne : ¬ s.current_index + 1 = -1 := by omega
  unfold add_file_to_playlist
  simp only [hp, ite_false, if_neg, h0, ite_true, if_pos, hne]
  refine ⟨trivial, trivial, ?_⟩
  have ht : (s.current_index + 1).toNat = s.current_index.toNat + 1 := by omega
  rw [ht, List.get?_cons_succ]

/-- C4, witnessed at `baseState` with a new path "c". -/
theorem c4_insert_at_head_preserves_current_track_witness :
    (add_file_to_playlist "c" baseState).playlist = "c" :: baseState.playlist ∧
    (add_file_to_playlist "c" baseState).current_index = baseState.current_index + 1 ∧
    (add_file_to_playlist "c" baseState).playlist.get?
        (add_file_to_playlist "c" baseState).current_index.toNat
      = baseState.playlist.get? baseState.current_index.toNat :=
  c4_insert_at_head_preserves_current_track baseState "c" (by decide) (by decide) (by decide)

/-- An empty-playlist state for the C5 scenario. -/
def c5State : State :=
  { baseState with playlist := [], current_index := -1, loadedSource := none }

/-- C5: the claim is FALSIFIED for the bulk load: the watcher's creation
filter lowercases `Path.suffix` and accepts "SONG.MP3", but
`load_existing_files` globs the lowercase patterns case-sensitively, so
a directory containing only "SONG.MP3" bulk-loads to an empty
playlist. -/
theorem c5_uppercase_extension_divergence :
    lowerStr (pathSuffix "SONG.MP3") ∈ AUDIO_EXTENSIONS ∧
    (on_created false "SONG.MP3" c5State).playlist = ["SONG.MP3"] ∧
    (load_existing_files [⟨"SONG.MP3", 5⟩] none c5State).playlist = [] := by
  decide

/-- Reloading the playlist never writes the config store. -/
theorem load_existing_files_savedConfigs (entries : List DirEntry)
    (limit : Option Nat) (s : State) :
    (load_existing_files entries limit s).savedConfigs = s.savedConfigs := by
  unfold load_existing_files
  dsimp only
  split
  · rw [load_current_song_savedConfigs]
  · rfl

/-- Loading a song touches none of the fields `save_config` writes. -/
theorem currentConfig_load_current_song (s : State) :
    currentConfig (load_current_song s) = currentConfig s := by
  unfold load_current_song currentConfig
  split <;> rfl

/-- Reloading the playlist touches none of the fields `save_config`
writes. -/
theorem currentConfig_load_existing_files (entries : List DirEntry)
    (limit : Option Nat) (s : State) :
    currentConfig (load_existing_files entries limit s) = currentConfig s := by
  unfold load_existing_files
  dsimp only
  split
  · rw [currentConfig_load_current_song]
    rfl
  · rfl

/-- C6 counterexample: moving the volume slider changes the volume but
writes nothing to the config store (`handle_volume_slider` never calls
`save_config`), so the new volume is not persisted at mutation time. -/
theorem c6_counterexample :
    baseState.volume = 70 ∧
    (handle_volume_slider 50 baseState).volume = 50 ∧
    (handle_volume_slider 50 baseState).savedConfigs = [] := by
  decide

/-- C6 amended: selecting a new target directory, changing the loop
mode, or accepting the settings dialog (initial playlist size / play
order) immediately writes the current settings to the config store; but
a volume slider change only updates the in-memory volume and performs
no config write (the volume is persisted only when `save_config` runs
for another reason, e.g. at shutdown). -/
theorem c6_amended_persistence (s : State) (v newCount : Nat)
    (newOrder : PlayOrder) (d : String) (entries dirEntries : List DirEntry) :
    (handle_volume_slider v s).volume = v ∧
    (handle_volume_slider v s).savedConfigs = s.savedConfigs ∧
    (toggle_loop_mode s).savedConfigs
      = currentConfig { s with loop_mode := nextLoopMode s.loop_mode } :: s.savedConfigs ∧
    (show_settings true newCount newOrder entries s).savedConfigs
      = currentConfig { s with initial_songs_count := newCount, play_order := newOrder }
          :: s.savedConfigs ∧
    (set_target_directory d dirEntries s).savedConfigs
      = currentConfig { s with target_directory := some d } :: s.savedConfigs := by
  refine ⟨rfl, rfl, rfl, ?_, ?_⟩
  · unfold show_settings
    rw [if_pos rfl]
    dsimp only [save_config]
    split
    · rw [load_existing_files_savedConfigs]
    · rfl
  · unfold set_target_directory save_config
    rw [currentConfig_load_existing_files, load_existing_files_savedConfigs]

/-- A state whose playlist holds exactly one track, current at index 0. -/
def c7State : State :=
  { baseState with playlist := ["only"], current_index := 0,
                   loadedSource := some "only", song_label := "only" }

/-- State `baseState` moved to the last track (index 1 of 2) with the
transport stopped, as after the track finished. -/
def c9State : State := { baseState with current_index := 1, playing := false }

/-- Characterization of a confirmed, successful delete at an in-range
index: the entry is removed and the index is -1 on an emptied playlist,
else clamped to the last position when it fell off the end. -/
theorem delete_current_song_ok (s : State)
    (h0 : 0 ≤ s.current_index)
    (hlt : s.current_index < (s.playlist.length : Int)) :
    (delete_current_song true true s).playlist
      = s.playlist.eraseIdx s.current_index.toNat ∧
    (delete_current_song true true s).current_index
      = (if s.playlist.eraseIdx s.current_index.toNat = [] then -1
         else if ((s.playlist.eraseIdx s.current_index.toNat).length : Int) ≤ s.current_index
              then ((s.playlist.eraseIdx s.current_index.toNat).length : Int) - 1
              else s.current_index) := by
  have hguard : ¬ (s.current_index < 0 ∨ (s.playlist.length : Int) ≤ s.current_index) := by
    omega
  unfold delete_current_song
  rw [if_neg hguard, if_neg (not_not_intro rfl), if_neg (not_not_intro rfl)]
  dsimp only
  by_cases hpl : s.playlist.eraseIdx s.current_index.toNat = []
  · rw [if_neg (not_not_intro hpl)]
    exact ⟨rfl, by rw [if_pos hpl]⟩
  · rw [if_pos hpl]
    constructor
    · show (load_current_song _).playlist = _
      rw [load_current_song_playlist]
    · show (load_current_song _).current_index = _
      rw [load_current_song_current_index, if_neg hpl]

/-- C7: a confirmed delete whose disk unlink succeeds removes the entry;
if it was the only track the playlist becomes empty and Current Index
the sentinel -1, and whenever tracks remain Current Index is clamped
into the range of the new playlist. -/
theorem c7_delete_clamps_index (s : State)
    (h0 : 0 ≤ s.current_index)
    (hlt : s.current_index < (s.playlist.length : Int)) :
    (delete_current_song true true s).playlist.length = s.playlist.length - 1 ∧
    (s.playlist.length = 1 →
      (delete_current_song true true s).playlist = [] ∧
      (delete_current_song true true s).current_index = -1) ∧
    ((delete_current_song true true s).playlist ≠ [] →
      0 ≤ (delete_current_song true true s).current_index ∧
      (delete_current_song true true s).current_index
        < ((delete_current_song true true s).playlist.length : Int)) := by
  obtain ⟨hpl2, hidx2⟩ := delete_current_song_ok s h0 hlt
  have hidx : s.current_index.toNat < s.playlist.length := by omega
  have hlen : (s.playlist.eraseIdx s.current_index.toNat).length = s.playlist.length - 1 := by
    rw [List.length_eraseIdx, if_pos hidx]
  refine ⟨by rw [hpl2, hlen], ?_, ?_⟩
  · intro h1
    have hz : s.playlist.eraseIdx s.current_index.toNat = [] := by
      apply List.length_eq_zero.mp; omega
    exact ⟨by rw [hpl2, hz], by rw [hidx2, if_pos hz]⟩
  · intro hne
    rw [hpl2] at hne
    have hlp : 0 < (s.playlist.eraseIdx s.current_index.toNat).length :=
      List.length_pos.mpr hne
    rw [hpl2, hidx2, if_neg hne]
    constructor
    · split <;> omega
    · split <;> omega

/-- C7, witnessed at a single-track state. -/
theorem c7_delete_clamps_index_witness :
    (delete_current_song true true c7State).playlist.length = c7State.playlist.length - 1 ∧
    (c7State.playlist.length = 1 →
      (delete_current_song true true c7State).playlist = [] ∧
      (delete_current_song true true c7State).current_index = -1) ∧
    ((delete_current_song true true c7State).playlist ≠ [] →
      0 ≤ (delete_current_song true true c7State).current_index ∧
      (delete_current_song true true c7State).current_index
        < ((delete_current_song true true c7State).playlist.length : Int)) :=
  c7_delete_clamps_index c7State (by decide) (by decide)

/-- C8: if the disk unlink of `delete_current_song` fails, the playlist
and Current Index are untouched (only `player.stop()` preceded the
failure), and if the rename of `toggle_save_song` fails the entire state
is unchanged. -/
theorem c8_failed_delete_rename_preserve_state (s : State) :
    ((delete_current_song true false s).playlist = s.playlist ∧
     (delete_current_song true false s).current_index = s.current_index) ∧
    (∀ e : Bool, toggle_save_song e false s = s) := by
  constructor
  · unfold delete_current_song
    split
    · exact ⟨rfl, rfl⟩
    · simp
  · intro e
    unfold toggle_save_song
    split
    · rfl
    · split
      · rfl
      · simp

/-- C9: with NoLoop, OldestToNewest and Current Index at the last
position, the end-of-media handler takes the stop branch: transport
stays stopped, the play button shows ▶, and neither Current Index nor
the playlist changes — no wraparound. -/
theorem c9_no_loop_far_end_stops (s : State)
    (hl : s.loop_mode = LoopMode.NO_LOOP)
    (ho : s.play_order = PlayOrder.OLDEST_TO_NEWEST)
    (hi : s.current_index = (s.playlist.length : Int) - 1)
    (hp : s.playing = false) :
    (on_media_status_changed MediaStatus.EndOfMedia s).current_index = s.current_index ∧
    (on_media_status_changed MediaStatus.EndOfMedia s).playing = false ∧
    (on_media_status_changed MediaStatus.EndOfMedia s).play_pause_label = "▶" ∧
    (on_media_status_changed MediaStatus.EndOfMedia s).playlist = s.playlist := by
  have hnotlt : ¬ s.current_index < (s.playlist.length : Int) - 1 := by omega
  unfold on_media_status_changed
  simp [hl, ho, hnotlt, hp]

/-- C9, witnessed at `baseState` moved to the last track with the
transport stopped. -/
theorem c9_no_loop_far_end_stops_witness :
    (on_media_status_changed MediaStatus.EndOfMedia c9State).current_index
        = c9State.current_index ∧
    (on_media_status_changed MediaStatus.EndOfMedia c9State).playing = false ∧
    (on_media_status_changed MediaStatus.EndOfMedia c9State).play_pause_label = "▶" ∧
    (on_media_status_changed MediaStatus.EndOfMedia c9State).playlist = c9State.playlist :=
  c9_no_loop_far_end_stops c9State (by decide) (by decide) (by decide) (by decide)

/-- C10: when the file at Current Index no longer exists on disk,
`delete_current_song` is a complete no-op: the whole state — playlist,
Current Index, playback — is returned unchanged, and the stale entry
stays in the playlist. -/
theorem c10_missing_file_delete_noop (unlinkOk : Bool) (s : State) :
    delete_current_song false unlinkOk s = s := by
  unfold delete_current_song
  split
  · rfl
  · simp

end Musibisk
